import Mathlib

/-!
Verification of the Findn LED BLE integration
(`custom_components/findn_led_ble`): a shallow embedding of the protocol
encoder (`device_protocol.py`) and of the connection / command-dispatch
state machine (`device.py`), together with theorems settling the frozen
specification claims.

External collaborators that are not part of the repository
(`homeassistant.util.color.brightness_to_value`, the
`bleak_retry_connector` retry decorator, the BLE transport itself) are
modelled explicitly; their doc comments say so.
-/

/-- Python `round` on rationals: round half to even (banker's rounding),
as used by `device_protocol.py` for brightness, hue and saturation. -/
def pyRound (q : ℚ) : Int :=
  if q - ⌊q⌋ < 1/2 then ⌊q⌋
  else if 1/2 < q - ⌊q⌋ then ⌊q⌋ + 1
  else if ⌊q⌋ % 2 = 0 then ⌊q⌋ else ⌊q⌋ + 1

/-- Python byte coercion: a list element passed to `bytes([...])` must be
in `0..255`, otherwise `bytes` raises `ValueError`. -/
def pyByte (n : Int) : Option Nat :=
  if 0 ≤ n ∧ n < 256 then some n.toNat else none

/-- Python `bytes([...])`: succeeds iff every element is in `0..255`. -/
def pyBytes : List Int → Option (List Nat)
  | [] => some []
  | n :: rest =>
    match pyByte n, pyBytes rest with
    | some b, some bs => some (b :: bs)
    | _, _ => none

/-! ## Protocol encoder (`device_protocol.py`, class `FindnLedBLEProtocol`)

Python `//` and `%` on ints are floor division and nonnegative-remainder
modulo; for the positive divisors (`256`) used here those coincide with
`Int` division `/` and `%` in Lean (Euclidean division). -/

/-- `_TURN_ON_CMD = bytes([0xBC, 0x01, 0x01, 0x01, 0x55])`. -/
def TURN_ON_CMD : List Nat := [0xBC, 0x01, 0x01, 0x01, 0x55]

/-- `_TURN_OFF_CMD = bytes([0xBC, 0x01, 0x01, 0x00, 0x55])`. -/
def TURN_OFF_CMD : List Nat := [0xBC, 0x01, 0x01, 0x00, 0x55]

/-- `_BRIGHTESS_SCALE_RANGE: tuple[int, int] = (100, 1000)` (sic). -/
def BRIGHTESS_SCALE_RANGE : ℚ × ℚ := (100, 1000)

/-- Modelled from the spec: `brightness_to_value` is an external helper
from `homeassistant.util.color`, absent from the repository sources.  The
spec describes the scaling as the linear rescale of the range `[1, 255]`
onto the configured scale range (here `[100, 1000]`):
`scale.1 + (brightness - 1) / 254 * (scale.2 - scale.1)`. -/
def brightness_to_value (scale : ℚ × ℚ) (brightness : Int) : ℚ :=
  scale.1 + ((brightness : ℚ) - 1) * (scale.2 - scale.1) / 254

/-- `construct_set_brightness_cmd` from `device_protocol.py`:
`round` the scaled brightness, then
`bytes([0xBC, 0x05, 0x06, s//256, s%256, 0, 0, 0, 0, 0x55])`. -/
def construct_set_brightness_cmd (brightness : Int) : Option (List Nat) :=
  let scaled : Int := pyRound (brightness_to_value BRIGHTESS_SCALE_RANGE brightness)
  pyBytes [0xBC, 0x05, 0x06, scaled / 256, scaled % 256,
           0x00, 0x00, 0x00, 0x00, 0x55]

/-- `construct_set_hs_color_cmd` from `device_protocol.py`:
`hue = round(hs[0])`, `saturation = round(hs[1] * 10)`, then
`bytes([0xBC, 0x04, 0x06, hue//256, hue%256, sat//256, sat%256, 0, 0, 0x55])`. -/
def construct_set_hs_color_cmd (hs : ℚ × ℚ) : Option (List Nat) :=
  let hue : Int := pyRound hs.1
  let saturation : Int := pyRound (hs.2 * 10)
  pyBytes [0xBC, 0x04, 0x06, hue / 256, hue % 256,
           saturation / 256, saturation % 256, 0x00, 0x00, 0x55]

/-- `construct_set_effect_cmd` from `device_protocol.py`:
`direction = 1 if effect > 0 else 0`, `effect = abs(effect)`, then the two
frames `bytes([0xBC, 0x06, 0x02, effect//256, effect%256, 0x55])` and
`bytes([0xBC, 0x07, 0x01, direction % 256, 0x55])`. -/
def construct_set_effect_cmd (effect : Int) : Option (List (List Nat)) :=
  let direction : Int := if 0 < effect then 1 else 0
  let e : Int := |effect|
  match pyBytes [0xBC, 0x06, 0x02, e / 256, e % 256, 0x55],
        pyBytes [0xBC, 0x07, 0x01, direction % 256, 0x55] with
  | some f1, some f2 => some [f1, f2]
  | _, _ => none

/-! ## Device model (`device.py`, class `FindnLedDevice`)

The device methods are `async`; the embedding is the sequential semantics
of one flow of control (all awaits resolve in order, locks are free when
acquired).  Exception propagation becomes `Except BleFault`.  Calls into
the BLE transport are resolved against a `Script` oracle, indexed by how
many calls of each kind have already happened, and are logged into an
event trace so that counting and ordering claims can be stated. -/

/-- `BLEAK_BACKOFF_TIME = 0.25`. -/
def BLEAK_BACKOFF_TIME : ℚ := 1/4

/-- `DEFAULT_ATTEMPTS = 3`. -/
def DEFAULT_ATTEMPTS : Nat := 3

/-- The exception classes that can cross the embedded code.
`bleakDBusError` and `bleakNotFoundError` are Python subclasses of
`BleakError`; `characteristicMissing` is the repository's own
`CharacteristicMissingError`; `assertionError` is Python's
`AssertionError` (from the `assert` in `_execute_command_locked`);
`valueError` is Python's `ValueError` (from `bytes([...])` on an
out-of-range element). -/
inductive BleFault
  | bleakDBusError
  | bleakError
  | bleakNotFoundError
  | characteristicMissing
  | assertionError
  | valueError
deriving DecidableEq

/-- Python `isinstance(e, BleakError)`. -/
def isBleakErrorClass : BleFault → Bool
  | BleFault.bleakDBusError => true
  | BleFault.bleakError => true
  | BleFault.bleakNotFoundError => true
  | _ => false

/-- Modelled from the spec: the fault classes that the external
`bleak_retry_connector.retry_bluetooth_connection_error` decorator
(absent from the repository sources) retries on.  The spec calls them the
transport-fault classes and excludes the characteristic-missing fault and
logic errors. -/
def retryable : BleFault → Bool := isBleakErrorClass

/-- `FindnLedState` from `device.py`: a frozen dataclass replaced
wholesale on every successful command.  `effect: int = None` defaults to
an absent value distinct from `0`. -/
structure FindnLedState where
  power : Bool := false
  hs : ℚ × ℚ := (0, 0)
  brightness : Int := 1
  effect : Option Int := none
deriving DecidableEq

/-- Observable events of one device run: lock traffic, transport calls
and backoff sleeps, in order. -/
inductive Ev
  | acquireConnectLock
  | releaseConnectLock
  | acquireOpLock
  | releaseOpLock
  | connectAttempt
  | getServices
  | setExpectedDisconnect
  | transportDisconnect
  | gattWrite (frame : List Nat)
  | sleepBackoff (t : ℚ)
deriving DecidableEq

/-- The mutable fields of a `FindnLedDevice` plus run bookkeeping.
`client = some b` models `self._client` holding a client whose
`is_connected` is `b`; `writeChar` models `self._write_char`;
`timerArmed` models `self._disconnect_timer`; `notifications` counts how
often the registered update callback has fired; `attempts` counts entries
into the retry-wrapped body of `_send_command_locked`; the remaining
counters index the `Script` oracle. -/
structure World where
  ledState : FindnLedState := {}
  client : Option Bool := none
  writeChar : Option Unit := none
  timerArmed : Bool := false
  expectedDisconnect : Bool := false
  callbackRegistered : Bool := false
  notifications : Nat := 0
  attempts : Nat := 0
  connectCount : Nat := 0
  getServicesCount : Nat := 0
  writeCount : Nat := 0
  trace : List Ev := []
deriving DecidableEq

/-- Modelled from the spec: the transport capability consumed by the
core.  The `i`-th `establish_connection` call returns `none` (success) or
raises a fault; the services of the `i`-th connection do or do not
contain the write characteristic, before and after a refetch; the `i`-th
`write_gatt_char` call succeeds (`none`) or raises a fault. -/
structure Script where
  connectResult : Nat → Option BleFault
  servicesChar : Nat → Bool
  refetchChar : Nat → Bool
  writeResult : Nat → Option BleFault

/-- Append one event to the run trace. -/
def pushEv (e : Ev) (w : World) : World :=
  { w with trace := w.trace ++ [e] }

/-- `update_callback` from `device.py`: run the registered callback if
there is one, otherwise do nothing. -/
def update_callback (w : World) : World :=
  if w.callbackRegistered then { w with notifications := w.notifications + 1 } else w

/-- `_resolve_characteristics` from `device.py`: store the characteristic
if the service collection has it, and report whether `self._write_char`
is now set. -/
def resolve_characteristics (found : Bool) (w : World) : Bool × World :=
  let w1 := if found then { w with writeChar := some () } else w
  (w1.writeChar.isSome, w1)

/-- `_reset_disconnect_timer` from `device.py`: cancel any pending timer,
clear the expected-disconnect flag and arm a fresh timer. -/
def reset_disconnect_timer (w : World) : World :=
  { w with expectedDisconnect := false, timerArmed := true }

/-- `_execute_disconnect` from `device.py`: under the connect lock, set
the expected-disconnect flag, drop the client and the write
characteristic, and call the transport disconnect only if the client was
present and connected. -/
def execute_disconnect (w : World) : World :=
  let w1 := pushEv Ev.acquireConnectLock w
  let client := w1.client
  let w2 := pushEv Ev.setExpectedDisconnect
    { w1 with expectedDisconnect := true, client := none, writeChar := none }
  let w3 := if client = some true then pushEv Ev.transportDisconnect w2 else w2
  pushEv Ev.releaseConnectLock w3

/-- `stop` from `device.py`. -/
def stop (w : World) : World :=
  execute_disconnect w

/-- The idle-timeout path from `device.py`: the timer fires
(`_disconnect` clears `self._disconnect_timer` and schedules
`_execute_timed_disconnect`), which runs `_execute_disconnect`. -/
def timed_disconnect (w : World) : World :=
  execute_disconnect { w with timerArmed := false }

/-- `_ensure_connected` from `device.py`: return at once when a connected
client is held (resetting the idle timer); otherwise, under the connect
lock, re-check, call `establish_connection`, resolve the write
characteristic from the cached services with one `get_services` refetch
if that fails, store the client and reset the idle timer.  The `resolved`
flag is never checked after the refetch. -/
def ensure_connected (s : Script) (w : World) : Except BleFault Unit × World :=
  if w.client = some true then (Except.ok (), reset_disconnect_timer w)
  else
    let w1 := pushEv Ev.acquireConnectLock w
    if w1.client = some true then
      (Except.ok (), pushEv Ev.releaseConnectLock (reset_disconnect_timer w1))
    else
      let i := w1.connectCount
      let w2 := pushEv Ev.connectAttempt { w1 with connectCount := i + 1 }
      match s.connectResult i with
      | some e => (Except.error e, pushEv Ev.releaseConnectLock w2)
      | none =>
        let p1 := resolve_characteristics (s.servicesChar i) w2
        let w4 :=
          if p1.1 then p1.2
          else
            let w3 := pushEv Ev.getServices
              { p1.2 with getServicesCount := p1.2.getServicesCount + 1 }
            (resolve_characteristics (s.refetchChar i) w3).2
        let w5 := reset_disconnect_timer { w4 with client := some true }
        (Except.ok (), pushEv Ev.releaseConnectLock w5)

/-- The write loop of `_execute_command_locked`: one
`write_gatt_char(char, command, response=False)` per frame, in order. -/
def write_all (s : Script) : List (List Nat) → World → Except BleFault Unit × World
  | [], w => (Except.ok (), w)
  | c :: rest, w =>
    let i := w.writeCount
    let w1 := pushEv (Ev.gattWrite c) { w with writeCount := i + 1 }
    match s.writeResult i with
    | some e => (Except.error e, w1)
    | none => write_all s rest w1

/-- `_execute_command_locked` from `device.py`: `assert` the client is
present, raise `CharacteristicMissingError` when the write characteristic
is unresolved, then write every frame in order. -/
def execute_command_locked (s : Script) (commands : List (List Nat)) (w : World) :
    Except BleFault Unit × World :=
  match w.client with
  | none => (Except.error BleFault.assertionError, w)
  | some _ =>
    match w.writeChar with
    | none => (Except.error BleFault.characteristicMissing, w)
    | some _ => write_all s commands w

/-- The body of `_send_command_locked` from `device.py` (one attempt of
the retry-decorated method): on `BleakDBusError` sleep the fixed backoff,
force a disconnect and re-raise; on any other `BleakError` force a
disconnect and re-raise; let everything else propagate untouched. -/
def send_command_locked_once (s : Script) (commands : List (List Nat)) (w : World) :
    Except BleFault Unit × World :=
  match execute_command_locked s commands w with
  | (Except.ok u, w1) => (Except.ok u, w1)
  | (Except.error e, w1) =>
    match e with
    | BleFault.bleakDBusError =>
      let w2 := pushEv (Ev.sleepBackoff BLEAK_BACKOFF_TIME) w1
      (Except.error e, execute_disconnect w2)
    | BleFault.bleakError =>
      (Except.error e, execute_disconnect w1)
    | BleFault.bleakNotFoundError =>
      (Except.error e, execute_disconnect w1)
    | e => (Except.error e, w1)

/-- Modelled from the spec: the bounded-retry combinator standing for the
external `retry_bluetooth_connection_error` decorator — up to `n` total
attempts of `body`, retrying only faults in the transport-fault classes
(`retryable`), and returning the last fault as-is on exhaustion.  Each
entry into `body` bumps the `attempts` counter. -/
def retryLoop (body : World → Except BleFault Unit × World) :
    Nat → World → Except BleFault Unit × World
  | n + 2, w =>
    match body { w with attempts := w.attempts + 1 } with
    | (Except.ok u, w1) => (Except.ok u, w1)
    | (Except.error e, w1) =>
      if retryable e then retryLoop body (n + 1) w1 else (Except.error e, w1)
  | _, w => body { w with attempts := w.attempts + 1 }

/-- `_send_command_locked` from `device.py`: the single-attempt body
wrapped in `retry_bluetooth_connection_error(DEFAULT_ATTEMPTS)`. -/
def send_command_locked (s : Script) (commands : List (List Nat)) (w : World) :
    Except BleFault Unit × World :=
  retryLoop (send_command_locked_once s commands) DEFAULT_ATTEMPTS w

/-- `_send_command_while_connected` from `device.py`: under the operation
lock, run the retry-wrapped locked send; its `except` clauses only log
and re-raise. -/
def send_command_while_connected (s : Script) (commands : List (List Nat)) (w : World) :
    Except BleFault Unit × World :=
  let w1 := pushEv Ev.acquireOpLock w
  match send_command_locked s commands w1 with
  | (r, w2) => (r, pushEv Ev.releaseOpLock w2)

/-- `_send_command` from `device.py`: ensure the connection, then send
while connected (a bare `bytes` argument is wrapped into a list by the
caller-side embedding). -/
def send_command (s : Script) (commands : List (List Nat)) (w : World) :
    Except BleFault Unit × World :=
  match ensure_connected s w with
  | (Except.error e, w1) => (Except.error e, w1)
  | (Except.ok _, w1) => send_command_while_connected s commands w1

/-- `turn_on` from `device.py`: send, then commit `power := true` and run
the update callback. -/
def turn_on (s : Script) (w : World) : Except BleFault Unit × World :=
  match send_command s [TURN_ON_CMD] w with
  | (Except.error e, w1) => (Except.error e, w1)
  | (Except.ok _, w1) =>
    let w2 := { w1 with ledState := { w1.ledState with power := true } }
    (Except.ok (), update_callback w2)

/-- `turn_off` from `device.py`. -/
def turn_off (s : Script) (w : World) : Except BleFault Unit × World :=
  match send_command s [TURN_OFF_CMD] w with
  | (Except.error e, w1) => (Except.error e, w1)
  | (Except.ok _, w1) =>
    let w2 := { w1 with ledState := { w1.ledState with power := false } }
    (Except.ok (), update_callback w2)

/-- `set_brightness` from `device.py`: build the frame (a `ValueError`
from `bytes` propagates before any send), send, then commit the new
brightness and run the update callback. -/
def set_brightness (s : Script) (brightness : Int) (w : World) :
    Except BleFault Unit × World :=
  match construct_set_brightness_cmd brightness with
  | none => (Except.error BleFault.valueError, w)
  | some frame =>
    match send_command s [frame] w with
    | (Except.error e, w1) => (Except.error e, w1)
    | (Except.ok _, w1) =>
      let w2 := { w1 with ledState := { w1.ledState with brightness := brightness } }
      (Except.ok (), update_callback w2)

/-- `set_hs_color` from `device.py`. -/
def set_hs_color (s : Script) (hs : ℚ × ℚ) (w : World) :
    Except BleFault Unit × World :=
  match construct_set_hs_color_cmd hs with
  | none => (Except.error BleFault.valueError, w)
  | some frame =>
    match send_command s [frame] w with
    | (Except.error e, w1) => (Except.error e, w1)
    | (Except.ok _, w1) =>
      let w2 := { w1 with ledState := { w1.ledState with hs := hs } }
      (Except.ok (), update_callback w2)

/-- `set_effect` from `device.py`: the encoder returns two frames, sent
as one command. -/
def set_effect (s : Script) (effect : Int) (w : World) :
    Except BleFault Unit × World :=
  match construct_set_effect_cmd effect with
  | none => (Except.error BleFault.valueError, w)
  | some frames =>
    match send_command s frames w with
    | (Except.error e, w1) => (Except.error e, w1)
    | (Except.ok _, w1) =>
      let w2 := { w1 with ledState := { w1.ledState with effect := some effect } }
      (Except.ok (), update_callback w2)

/-! ## Concrete scenarios used by counterexamples and witnesses -/

/-- A fresh device: no client, no characteristic, default state. -/
def w0 : World := {}

/-- A transport where connecting and characteristic resolution always
succeed and every write raises the transient bus fault
(`BleakDBusError`). -/
def sAllDBus : Script where
  connectResult := fun _ => none
  servicesChar := fun _ => true
  refetchChar := fun _ => true
  writeResult := fun _ => some BleFault.bleakDBusError

/-- A transport where connecting and characteristic resolution always
succeed and every write raises a generic `BleakError`. -/
def sAllBleak : Script where
  connectResult := fun _ => none
  servicesChar := fun _ => true
  refetchChar := fun _ => true
  writeResult := fun _ => some BleFault.bleakError

/-- A transport where connecting succeeds but the write characteristic is
never found, neither in the cached services nor after the refetch. -/
def sNoChar : Script where
  connectResult := fun _ => none
  servicesChar := fun _ => false
  refetchChar := fun _ => false
  writeResult := fun _ => none

/-- A transport where everything succeeds. -/
def sAllOk : Script where
  connectResult := fun _ => none
  servicesChar := fun _ => true
  refetchChar := fun _ => true
  writeResult := fun _ => none

/-- A device holding a connected client with a resolved characteristic. -/
def wConnected : World := { client := some true, writeChar := some () }

/-- A device holding a connected client whose write characteristic was
never resolved. -/
def wCharMissing : World := { client := some true, writeChar := none }

/-! ## Predicates used to state the claims -/

/-- Whether an embedded call returned normally. -/
def exOk : Except BleFault Unit → Bool
  | Except.ok _ => true
  | Except.error _ => false

/-- State-commit atomicity of one public command, relative to the state
`w` it started from: on a fault the logical state and the callback count
are exactly as before; on success the logical state is the committed
`new` value and the registered callback fired exactly once (no callback
registered means no notification). -/
def commits (w : World) (run : Except BleFault Unit × World) (new : FindnLedState) : Prop :=
  run.2.ledState = (if exOk run.1 then new else w.ledState) ∧
  run.2.notifications =
    w.notifications + (if exOk run.1 ∧ w.callbackRegistered then 1 else 0)

/-- The trace of one `_execute_disconnect`: take the connect lock, set
the expected-disconnect flag, call the transport disconnect only when a
connected client was held, release the lock. -/
def disconnectDelta (w : World) : List Ev :=
  [Ev.acquireConnectLock, Ev.setExpectedDisconnect] ++
    (if w.client = some true then [Ev.transportDisconnect] else []) ++
    [Ev.releaseConnectLock]

/-- Outcome of one locked-send attempt whose inner write raised the fault
`e`, when the handler backs off and forces a disconnect before
re-raising: the fault is re-raised unchanged, the handle and
characteristic are cleared, and the trace shows the backoff sleep
followed by the full disconnect sequence (`sleeps` is the list of backoff
sleeps, empty for the no-backoff classes). -/
def handledWithDisconnect (s : Script) (cmds : List (List Nat)) (w : World)
    (e : BleFault) (sleeps : List Ev) : Prop :=
  (send_command_locked_once s cmds w).1 = Except.error e ∧
  (send_command_locked_once s cmds w).2.client = none ∧
  (send_command_locked_once s cmds w).2.writeChar = none ∧
  (send_command_locked_once s cmds w).2.expectedDisconnect = true ∧
  (send_command_locked_once s cmds w).2.trace =
    (execute_command_locked s cmds w).2.trace ++ sleeps ++
      disconnectDelta (execute_command_locked s cmds w).2

/-- A pipeline step left the facade-visible fields (logical state,
callback count, callback registration) untouched. -/
def FacPres (w w' : World) : Prop :=
  w'.ledState = w.ledState ∧ w'.notifications = w.notifications ∧
    w'.callbackRegistered = w.callbackRegistered

/-- Additionally, the step (one below `_ensure_connected`) issues no
connection attempt. -/
def DispPres (w w' : World) : Prop :=
  FacPres w w' ∧ w'.connectCount = w.connectCount

/-! ## Lemmas about the Python-semantics helpers -/

lemma pyRound_intCast (n : ℤ) : pyRound ((n : ℤ) : ℚ) = n := by
  simp [pyRound]

lemma le_pyRound (n : ℤ) (q : ℚ) (h : (n : ℚ) ≤ q) : n ≤ pyRound q := by
  have hf : n ≤ ⌊q⌋ := Int.le_floor.mpr h
  unfold pyRound
  split_ifs <;> omega

lemma pyRound_le (n : ℤ) (q : ℚ) (h : q ≤ (n : ℚ)) : pyRound q ≤ n := by
  have hf : ⌊q⌋ ≤ n := by
    have := Int.floor_le_floor h
    simpa using this
  have hlt : ¬ q - ⌊q⌋ < 1/2 → ⌊q⌋ < n := by
    intro h1
    rcases lt_or_eq_of_le hf with h4 | h4
    · exact h4
    · exfalso
      have hq : q ≤ (⌊q⌋ : ℚ) := h4 ▸ h
      have h5 : (0 : ℚ) ≤ q - ⌊q⌋ := by
        have := Int.floor_le q
        linarith
      have : (1 : ℚ)/2 ≤ q - ⌊q⌋ := le_of_not_lt h1
      linarith
  unfold pyRound
  split_ifs with h1 h2 h3
  · exact hf
  · have := hlt h1
    omega
  · exact hf
  · have := hlt h1
    omega

lemma pyBytes_eq_some (l : List Int) (h : ∀ n ∈ l, 0 ≤ n ∧ n < 256) :
    pyBytes l = some (l.map Int.toNat) := by
  induction l with
  | nil => simp [pyBytes]
  | cons n rest ih =>
    have hn := h n (by simp)
    have hrest : ∀ m ∈ rest, 0 ≤ m ∧ m < 256 := fun m hm => h m (by simp [hm])
    simp [pyBytes, pyByte, hn, ih hrest]

/-! ## Preservation lemmas for the dispatch pipeline -/

lemma facPres_refl (w : World) : FacPres w w := ⟨rfl, rfl, rfl⟩

lemma facPres_trans {a b c : World} (h1 : FacPres a b) (h2 : FacPres b c) :
    FacPres a c := by
  obtain ⟨x1, y1, z1⟩ := h1
  obtain ⟨x2, y2, z2⟩ := h2
  exact ⟨x2.trans x1, y2.trans y1, z2.trans z1⟩

lemma dispPres_refl (w : World) : DispPres w w := ⟨facPres_refl w, rfl⟩

lemma dispPres_trans {a b c : World} (h1 : DispPres a b) (h2 : DispPres b c) :
    DispPres a c :=
  ⟨facPres_trans h1.1 h2.1, h2.2.trans h1.2⟩

lemma dispPres_pushEv (e : Ev) (w : World) : DispPres w (pushEv e w) := by
  simp [DispPres, FacPres, pushEv]

lemma dispPres_execute_disconnect (w : World) : DispPres w (execute_disconnect w) := by
  unfold execute_disconnect
  dsimp only [pushEv]
  split <;> simp [DispPres, FacPres]

lemma dispPres_write_all (s : Script) (cmds : List (List Nat)) :
    ∀ w : World, DispPres w (write_all s cmds w).2 := by
  induction cmds with
  | nil => intro w; simp [write_all, dispPres_refl]
  | cons c rest ih =>
    intro w
    unfold write_all
    dsimp only [pushEv]
    cases hw : s.writeResult w.writeCount with
    | some e =>
      simp only [hw]
      simp [DispPres, FacPres]
    | none =>
      simp only [hw]
      exact dispPres_trans (by simp [DispPres, FacPres]) (ih _)

lemma dispPres_execute_command_locked (s : Script) (cmds : List (List Nat)) (w : World) :
    DispPres w (execute_command_locked s cmds w).2 := by
  unfold execute_command_locked
  cases w.client with
  | none => exact dispPres_refl w
  | some b =>
    cases hwc : w.writeChar with
    | none => exact dispPres_refl w
    | some u => exact dispPres_write_all s cmds w

lemma dispPres_send_command_locked_once (s : Script) (cmds : List (List Nat)) (w : World) :
    DispPres w (send_command_locked_once s cmds w).2 := by
  unfold send_command_locked_once
  cases hrun : execute_command_locked s cmds w with
  | mk r w1 =>
    have h0 : DispPres w w1 := by
      have h2 := dispPres_execute_command_locked s cmds w
      rw [hrun] at h2
      exact h2
    cases r with
    | ok u => exact h0
    | error e =>
      cases e with
      | bleakDBusError =>
        exact dispPres_trans h0
          (dispPres_trans (dispPres_pushEv _ _) (dispPres_execute_disconnect _))
      | bleakError => exact dispPres_trans h0 (dispPres_execute_disconnect _)
      | bleakNotFoundError => exact dispPres_trans h0 (dispPres_execute_disconnect _)
      | characteristicMissing => exact h0
      | assertionError => exact h0
      | valueError => exact h0

lemma dispPres_attempts (w : World) : DispPres w { w with attempts := w.attempts + 1 } := by
  simp [DispPres, FacPres]

lemma dispPres_retryLoop (body : World → Except BleFault Unit × World)
    (hb : ∀ w, DispPres w (body w).2) :
    ∀ (n : Nat) (w : World), DispPres w (retryLoop body n w).2
  | 0, w => by
    unfold retryLoop
    exact dispPres_trans (dispPres_attempts w) (hb _)
  | 1, w => by
    unfold retryLoop
    exact dispPres_trans (dispPres_attempts w) (hb _)
  | n + 2, w => by
    unfold retryLoop
    have h0 : DispPres w (body { w with attempts := w.attempts + 1 }).2 :=
      dispPres_trans (dispPres_attempts w) (hb _)
    cases hbw : body { w with attempts := w.attempts + 1 } with
    | mk r w1 =>
      rw [hbw] at h0
      cases r with
      | ok u => exact h0
      | error e =>
        by_cases hr : retryable e
        · simpa [hr] using dispPres_trans h0 (dispPres_retryLoop body hb (n + 1) w1)
        · simpa [hr] using h0

lemma dispPres_send_command_locked (s : Script) (cmds : List (List Nat)) (w : World) :
    DispPres w (send_command_locked s cmds w).2 :=
  dispPres_retryLoop _ (dispPres_send_command_locked_once s cmds) DEFAULT_ATTEMPTS w

lemma dispPres_send_command_while_connected (s : Script) (cmds : List (List Nat)) (w : World) :
    DispPres w (send_command_while_connected s cmds w).2 := by
  unfold send_command_while_connected
  dsimp only
  cases hrun : send_command_locked s cmds (pushEv Ev.acquireOpLock w) with
  | mk r w1 =>
    have h0 : DispPres (pushEv Ev.acquireOpLock w) w1 := by
      have h2 := dispPres_send_command_locked s cmds (pushEv Ev.acquireOpLock w)
      rw [hrun] at h2
      exact h2
    exact dispPres_trans (dispPres_pushEv _ w)
      (dispPres_trans h0 (dispPres_pushEv _ w1))

lemma facPres_reset_disconnect_timer (w : World) : FacPres w (reset_disconnect_timer w) := by
  simp [FacPres, reset_disconnect_timer]

lemma facPres_ensure_connected (s : Script) (w : World) :
    FacPres w (ensure_connected s w).2 := by
  unfold ensure_connected
  dsimp only [pushEv, resolve_characteristics, reset_disconnect_timer]
  by_cases h1 : w.client = some true
  · simp [h1, FacPres]
  · simp only [h1, if_false]
    cases hc : s.connectResult w.connectCount with
    | some e => simp [hc, FacPres]
    | none =>
      simp only [hc]
      split_ifs <;> simp [FacPres]

lemma connectCount_ensure_connected (s : Script) (w : World) :
    (ensure_connected s w).2.connectCount ≤ w.connectCount + 1 := by
  unfold ensure_connected
  dsimp only [pushEv, resolve_characteristics, reset_disconnect_timer]
  by_cases h1 : w.client = some true
  · simp [h1]
  · simp only [h1, if_false]
    cases hc : s.connectResult w.connectCount with
    | some e => simp [hc]
    | none =>
      simp only [hc]
      split_ifs <;> simp

lemma facPres_send_command (s : Script) (cmds : List (List Nat)) (w : World) :
    FacPres w (send_command s cmds w).2 := by
  unfold send_command
  have h0 := facPres_ensure_connected s w
  cases hrun : ensure_connected s w with
  | mk r w1 =>
    rw [hrun] at h0
    cases r with
    | error e => exact h0
    | ok u => exact facPres_trans h0 (dispPres_send_command_while_connected s cmds w1).1

lemma connectCount_send_command (s : Script) (cmds : List (List Nat)) (w : World) :
    (send_command s cmds w).2.connectCount ≤ w.connectCount + 1 := by
  unfold send_command
  cases hrun : ensure_connected s w with
  | mk r w1 =>
    have h0 : w1.connectCount ≤ w.connectCount + 1 := by
      have h2 := connectCount_ensure_connected s w
      rw [hrun] at h2
      exact h2
    cases r with
    | error e => exact h0
    | ok u =>
      have h1 := (dispPres_send_command_while_connected s cmds w1).2
      show (send_command_while_connected s cmds w1).2.connectCount ≤ w.connectCount + 1
      omega

/-! ## Commit behaviour of the public commands -/

lemma commits_error (w w1 : World) (e : BleFault) (new : FindnLedState)
    (hp : FacPres w w1) : commits w (Except.error e, w1) new := by
  obtain ⟨hL, hN, hC⟩ := hp
  simp [commits, exOk, hL, hN]

lemma commits_ok (w w1 : World) (upd : FindnLedState → FindnLedState)
    (hp : FacPres w w1) :
    commits w (Except.ok (), update_callback { w1 with ledState := upd w1.ledState })
      (upd w.ledState) := by
  obtain ⟨hL, hN, hC⟩ := hp
  by_cases hcb : w.callbackRegistered <;>
    simp [commits, exOk, update_callback, hL, hN, hC, hcb]

/-- C1: for every public command (`turn_on`, `turn_off`, `set_brightness`,
`set_hs_color`, `set_effect`), if the dispatcher send raises any fault the
logical state is exactly what it was before the command and the
update-notification callback does not fire, and if the send succeeds the
state is replaced wholesale with the new value and the registered
callback fires exactly once (a no-op when no callback is registered). -/
theorem claim_C1 (s : Script) (w : World) (b : Int) (hsv : ℚ × ℚ) (e : Int) :
    commits w (turn_on s w) { w.ledState with power := true } ∧
    commits w (turn_off s w) { w.ledState with power := false } ∧
    commits w (set_brightness s b w) { w.ledState with brightness := b } ∧
    commits w (set_hs_color s hsv w) { w.ledState with hs := hsv } ∧
    commits w (set_effect s e w) { w.ledState with effect := some e } := by
  refine ⟨?_, ?_, ?_, ?_, ?_⟩
  · unfold turn_on
    cases hrun : send_command s [TURN_ON_CMD] w with
    | mk r w1 =>
      have hp : FacPres w w1 := by
        have h2 := facPres_send_command s [TURN_ON_CMD] w
        rw [hrun] at h2
        exact h2
      cases r with
      | error f => exact commits_error w w1 f _ hp
      | ok u => exact commits_ok w w1 (fun st => { st with power := true }) hp
  · unfold turn_off
    cases hrun : send_command s [TURN_OFF_CMD] w with
    | mk r w1 =>
      have hp : FacPres w w1 := by
        have h2 := facPres_send_command s [TURN_OFF_CMD] w
        rw [hrun] at h2
        exact h2
      cases r with
      | error f => exact commits_error w w1 f _ hp
      | ok u => exact commits_ok w w1 (fun st => { st with power := false }) hp
  · unfold set_brightness
    cases hcons : construct_set_brightness_cmd b with
    | none => simp [commits, exOk]
    | some frame =>
      dsimp only
      cases hrun : send_command s [frame] w with
      | mk r w1 =>
        have hp : FacPres w w1 := by
          have h2 := facPres_send_command s [frame] w
          rw [hrun] at h2
          exact h2
        cases r with
        | error f => exact commits_error w w1 f _ hp
        | ok u => exact commits_ok w w1 (fun st => { st with brightness := b }) hp
  · unfold set_hs_color
    cases hcons : construct_set_hs_color_cmd hsv with
    | none => simp [commits, exOk]
    | some frame =>
      dsimp only
      cases hrun : send_command s [frame] w with
      | mk r w1 =>
        have hp : FacPres w w1 := by
          have h2 := facPres_send_command s [frame] w
          rw [hrun] at h2
          exact h2
        cases r with
        | error f => exact commits_error w w1 f _ hp
        | ok u => exact commits_ok w w1 (fun st => { st with hs := hsv }) hp
  · unfold set_effect
    cases hcons : construct_set_effect_cmd e with
    | none => simp [commits, exOk]
    | some frames =>
      dsimp only
      cases hrun : send_command s frames w with
      | mk r w1 =>
        have hp : FacPres w w1 := by
          have h2 := facPres_send_command s frames w
          rw [hrun] at h2
          exact h2
        cases r with
        | error f => exact commits_error w w1 f _ hp
        | ok u => exact commits_ok w w1 (fun st => { st with effect := some e }) hp

/-! ## Unfolding and attempt-count lemmas for the retry wrapper -/

lemma retryLoop_three (body : World → Except BleFault Unit × World) (w : World) :
    retryLoop body 3 w =
      match body { w with attempts := w.attempts + 1 } with
      | (Except.ok u, w1) => (Except.ok u, w1)
      | (Except.error e, w1) =>
        if retryable e then retryLoop body 2 w1 else (Except.error e, w1) := rfl

lemma retryLoop_two (body : World → Except BleFault Unit × World) (w : World) :
    retryLoop body 2 w =
      match body { w with attempts := w.attempts + 1 } with
      | (Except.ok u, w1) => (Except.ok u, w1)
      | (Except.error e, w1) =>
        if retryable e then retryLoop body 1 w1 else (Except.error e, w1) := rfl

lemma retryLoop_one (body : World → Except BleFault Unit × World) (w : World) :
    retryLoop body 1 w = body { w with attempts := w.attempts + 1 } := rfl

lemma attempts_execute_disconnect (w : World) :
    (execute_disconnect w).attempts = w.attempts := by
  unfold execute_disconnect
  dsimp only [pushEv]
  split <;> rfl

lemma attempts_write_all (s : Script) (cmds : List (List Nat)) :
    ∀ w : World, (write_all s cmds w).2.attempts = w.attempts := by
  induction cmds with
  | nil => intro w; rfl
  | cons c rest ih =>
    intro w
    unfold write_all
    dsimp only [pushEv]
    cases hw : s.writeResult w.writeCount with
    | some e => rfl
    | none => exact ih _

lemma attempts_execute_command_locked (s : Script) (cmds : List (List Nat)) (w : World) :
    (execute_command_locked s cmds w).2.attempts = w.attempts := by
  unfold execute_command_locked
  cases w.client with
  | none => rfl
  | some b =>
    cases w.writeChar with
    | none => rfl
    | some u => exact attempts_write_all s cmds w

lemma attempts_send_command_locked_once (s : Script) (cmds : List (List Nat)) (w : World) :
    (send_command_locked_once s cmds w).2.attempts = w.attempts := by
  unfold send_command_locked_once
  cases hrun : execute_command_locked s cmds w with
  | mk r w1 =>
    have h0 : w1.attempts = w.attempts := by
      have h2 := attempts_execute_command_locked s cmds w
      rw [hrun] at h2
      exact h2
    cases r with
    | ok u => exact h0
    | error e =>
      cases e with
      | bleakDBusError =>
        show (execute_disconnect (pushEv (Ev.sleepBackoff BLEAK_BACKOFF_TIME) w1)).attempts = w.attempts
        rw [attempts_execute_disconnect]
        exact h0
      | bleakError =>
        show (execute_disconnect w1).attempts = w.attempts
        rw [attempts_execute_disconnect]
        exact h0
      | bleakNotFoundError =>
        show (execute_disconnect w1).attempts = w.attempts
        rw [attempts_execute_disconnect]
        exact h0
      | characteristicMissing => exact h0
      | assertionError => exact h0
      | valueError => exact h0

lemma attempts_retryLoop (body : World → Except BleFault Unit × World)
    (hb : ∀ w, (body w).2.attempts = w.attempts) :
    ∀ (n : Nat), 1 ≤ n → ∀ w : World, (retryLoop body n w).2.attempts ≤ w.attempts + n
  | 0, h, _ => absurd h (by decide)
  | 1, _, w => by
    unfold retryLoop
    rw [hb]
  | n + 2, _, w => by
    unfold retryLoop
    cases hbw : body { w with attempts := w.attempts + 1 } with
    | mk r w1 =>
      have ha : w1.attempts = w.attempts + 1 := by
        have h2 := hb { w with attempts := w.attempts + 1 }
        rw [hbw] at h2
        exact h2
      cases r with
      | ok u =>
        show w1.attempts ≤ w.attempts + (n + 2)
        omega
      | error e =>
        dsimp only
        by_cases hr : retryable e = true
        · rw [if_pos hr]
          have h3 := attempts_retryLoop body hb (n + 1) (by omega) w1
          omega
        · rw [if_neg hr]
          show w1.attempts ≤ w.attempts + (n + 2)
          omega

lemma attempts_ensure_connected (s : Script) (w : World) :
    (ensure_connected s w).2.attempts = w.attempts := by
  unfold ensure_connected
  dsimp only [pushEv, resolve_characteristics, reset_disconnect_timer]
  by_cases h1 : w.client = some true
  · simp [h1]
  · simp only [h1, if_false]
    cases hc : s.connectResult w.connectCount with
    | some e => simp [hc]
    | none =>
      simp only [hc]
      split_ifs <;> simp

lemma attempts_send_command (s : Script) (cmds : List (List Nat)) (w : World) :
    (send_command s cmds w).2.attempts ≤ w.attempts + DEFAULT_ATTEMPTS := by
  unfold send_command
  cases hrun : ensure_connected s w with
  | mk r w1 =>
    have h0 : w1.attempts = w.attempts := by
      have h2 := attempts_ensure_connected s w
      rw [hrun] at h2
      exact h2
    cases r with
    | error e => simp [h0, DEFAULT_ATTEMPTS]
    | ok u =>
      show (send_command_while_connected s cmds w1).2.attempts ≤ w.attempts + DEFAULT_ATTEMPTS
      unfold send_command_while_connected
      dsimp only
      cases hlk : send_command_locked s cmds (pushEv Ev.acquireOpLock w1) with
      | mk r2 w2 =>
        have h3 : w2.attempts ≤ w1.attempts + DEFAULT_ATTEMPTS := by
          have h4 := attempts_retryLoop (send_command_locked_once s cmds)
            (attempts_send_command_locked_once s cmds) DEFAULT_ATTEMPTS (by decide)
            (pushEv Ev.acquireOpLock w1)
          rw [show retryLoop (send_command_locked_once s cmds) DEFAULT_ATTEMPTS
                (pushEv Ev.acquireOpLock w1) =
              send_command_locked s cmds (pushEv Ev.acquireOpLock w1) from rfl, hlk] at h4
          exact h4
        simp only [pushEv]
        omega

/-! ## C2: placement and classes of the retry policy -/

/-- C2 (counterexample): with a transport whose every write raises the
transient bus fault, a full `_send_command` performs a retry (two entries
into the retry body) but only one connection attempt; the retried attempt
does not re-establish the connection — it fails on the cleared handle
with the assertion error instead of writing.  Under the claim as stated
the retried attempt would have re-run `_ensure_connected`, giving a
second connection attempt. -/
theorem claim_C2_counterexample :
    (send_command sAllDBus [[0x01]] w0).2.attempts = 2 ∧
    (send_command sAllDBus [[0x01]] w0).2.connectCount = 1 ∧
    (send_command sAllDBus [[0x01]] w0).1 = Except.error BleFault.assertionError :=
  ⟨by decide, by decide, rfl⟩

/-- C2 (amended): the bounded retry policy of up to `DEFAULT_ATTEMPTS = 3`
total attempts wraps only the locked write portion (`_send_command_locked`),
not `_ensure_connected`: a whole `_send_command` performs at most one
connection attempt, so a retried attempt does not re-establish the
connection.  Retries happen only on the transport-fault classes, never on
the characteristic-missing fault or on logic errors. -/
theorem claim_C2 (s : Script) (cmds : List (List Nat)) (w : World) :
    (send_command s cmds w).2.connectCount ≤ w.connectCount + 1 ∧
    (send_command s cmds w).2.attempts ≤ w.attempts + DEFAULT_ATTEMPTS ∧
    retryable BleFault.bleakDBusError = true ∧
    retryable BleFault.bleakError = true ∧
    retryable BleFault.bleakNotFoundError = true ∧
    retryable BleFault.characteristicMissing = false ∧
    retryable BleFault.assertionError = false ∧
    retryable BleFault.valueError = false :=
  ⟨connectCount_send_command s cmds w, attempts_send_command s cmds w,
    rfl, rfl, rfl, rfl, rfl, rfl⟩

/-! ## C3: retry bound on the two canonical failing transports -/

/-- C3 (counterexample): a command whose writes always raise the
transient bus fault results in one actual write and two retry-body
attempts — not three — and the fault that reaches the caller is the
assertion error produced by the cleared connection handle, not the bus
fault. -/
theorem claim_C3_counterexample :
    (send_command sAllDBus [[0x02]] w0).1 = Except.error BleFault.assertionError ∧
    (send_command sAllDBus [[0x02]] w0).2.writeCount = 1 ∧
    (send_command sAllDBus [[0x02]] w0).2.attempts = 2 :=
  ⟨rfl, by decide, by decide⟩

/-- C3 (amended): starting from a device with no held client and no
resolved characteristic, a command whose write always raises the
transient bus fault performs exactly one write and two retry-body
attempts and propagates the assertion error raised by the second attempt
on the cleared connection handle; a command failing with the
characteristic-missing fault results in exactly one attempt, no write,
and propagates immediately without retry. -/
theorem claim_C3 (w : World) (c : List Nat)
    (h1 : w.client = none) (h2 : w.writeChar = none) :
    ((send_command sAllDBus [c] w).1 = Except.error BleFault.assertionError ∧
     (send_command sAllDBus [c] w).2.attempts = w.attempts + 2 ∧
     (send_command sAllDBus [c] w).2.writeCount = w.writeCount + 1) ∧
    ((send_command sNoChar [c] w).1 = Except.error BleFault.characteristicMissing ∧
     (send_command sNoChar [c] w).2.attempts = w.attempts + 1 ∧
     (send_command sNoChar [c] w).2.writeCount = w.writeCount) := by
  constructor
  · simp only [send_command, ensure_connected, send_command_while_connected,
      send_command_locked, DEFAULT_ATTEMPTS, retryLoop_three, retryLoop_two, retryLoop_one,
      send_command_locked_once, execute_command_locked, write_all, execute_disconnect,
      resolve_characteristics, reset_disconnect_timer, pushEv, retryable, isBleakErrorClass,
      sAllDBus, h1]
    simp
  · simp only [send_command, ensure_connected, send_command_while_connected,
      send_command_locked, DEFAULT_ATTEMPTS, retryLoop_three, retryLoop_two, retryLoop_one,
      send_command_locked_once, execute_command_locked, write_all, execute_disconnect,
      resolve_characteristics, reset_disconnect_timer, pushEv, retryable, isBleakErrorClass,
      sNoChar, h1, h2]
    simp

/-- Witness for the amended C3 at the fresh device. -/
theorem claim_C3_witness :
    ((send_command sAllDBus [[0x01]] w0).1 = Except.error BleFault.assertionError ∧
     (send_command sAllDBus [[0x01]] w0).2.attempts = w0.attempts + 2 ∧
     (send_command sAllDBus [[0x01]] w0).2.writeCount = w0.writeCount + 1) ∧
    ((send_command sNoChar [[0x01]] w0).1 = Except.error BleFault.characteristicMissing ∧
     (send_command sNoChar [[0x01]] w0).2.attempts = w0.attempts + 1 ∧
     (send_command sNoChar [[0x01]] w0).2.writeCount = w0.writeCount) :=
  claim_C3 w0 [0x01] rfl rfl

/-! ## C4 and C10: the effect encoder -/

lemma construct_set_effect_eq (e : Int) (h : e.natAbs ≤ 65535) :
    construct_set_effect_cmd e =
      some [[0xBC, 0x06, 0x02, e.natAbs / 256, e.natAbs % 256, 0x55],
            [0xBC, 0x07, 0x01, if 0 < e then 1 else 0, 0x55]] := by
  unfold construct_set_effect_cmd
  dsimp only
  rw [Int.abs_eq_natAbs]
  have h1 : pyBytes [0xBC, 0x06, 0x02, (e.natAbs : ℤ) / 256, (e.natAbs : ℤ) % 256, 0x55] =
      some [0xBC, 0x06, 0x02, e.natAbs / 256, e.natAbs % 256, 0x55] := by
    rw [pyBytes_eq_some]
    · simp only [List.map_cons, List.map_nil, Option.some.injEq, List.cons.injEq]
      refine ⟨by omega, by omega, by omega, by omega, by omega, by omega, trivial⟩
    · intro n hn
      simp only [List.mem_cons, List.not_mem_nil, or_false] at hn
      rcases hn with rfl | rfl | rfl | rfl | rfl | rfl <;> omega
  have h2 : pyBytes [0xBC, 0x07, 0x01, (if 0 < e then (1 : ℤ) else 0) % 256, 0x55] =
      some [0xBC, 0x07, 0x01, if 0 < e then 1 else 0, 0x55] := by
    by_cases he : 0 < e <;> simp only [he, if_true, if_false] <;> decide
  rw [h1, h2]

/-- C4 (counterexample): for `effect = 65536` the magnitude high byte is
`256`, `bytes` raises `ValueError`, and no frames at all are produced —
the claim's universal quantification over every signed integer effect
fails. -/
theorem claim_C4_counterexample : construct_set_effect_cmd 65536 = none := by decide

/-- C4 (amended): for every signed integer effect of magnitude at most
`65535`, `construct_set_effect_cmd` yields exactly the two frames
`[0xBC, 0x06, 0x02, hi(|effect|), lo(|effect|), 0x55]` and
`[0xBC, 0x07, 0x01, direction, 0x55]` in that order, with
`direction = 1` iff `effect > 0`; larger magnitudes raise before any
frame is built. -/
theorem claim_C4 (e : Int) (h : e.natAbs ≤ 65535) :
    construct_set_effect_cmd e =
      some [[0xBC, 0x06, 0x02, e.natAbs / 256, e.natAbs % 256, 0x55],
            [0xBC, 0x07, 0x01, if 0 < e then 1 else 0, 0x55]] :=
  construct_set_effect_eq e h

/-- Witness for the amended C4 at the spec's example `setEffect(-3)`. -/
theorem claim_C4_witness :
    construct_set_effect_cmd (-3) =
      some [[0xBC, 0x06, 0x02, 0x00, 0x03, 0x55], [0xBC, 0x07, 0x01, 0x00, 0x55]] := by
  have h := claim_C4 (-3) (by decide)
  rw [h]
  decide

/-- C10: for every integer effect with `|effect| ≤ 65535` the frame
construction is total and yields two well-formed frames of lengths 6 and
5 whose fields are all bytes; for `|effect| > 65535` the construction
fails and `set_effect` raises `ValueError` before any frame is sent,
leaving the world untouched. -/
theorem claim_C10 (e : Int) :
    (e.natAbs ≤ 65535 →
      ∃ f1 f2, construct_set_effect_cmd e = some [f1, f2] ∧
        f1.length = 6 ∧ f2.length = 5 ∧
        (∀ b ∈ f1, b < 256) ∧ (∀ b ∈ f2, b < 256)) ∧
    (65535 < e.natAbs →
      construct_set_effect_cmd e = none ∧
      ∀ (s : Script) (w : World),
        set_effect s e w = (Except.error BleFault.valueError, w)) := by
  constructor
  · intro h
    refine ⟨_, _, construct_set_effect_eq e h, rfl, rfl, ?_, ?_⟩
    · intro b hb
      simp only [List.mem_cons, List.not_mem_nil, or_false] at hb
      rcases hb with rfl | rfl | rfl | rfl | rfl | rfl <;> omega
    · intro b hb
      simp only [List.mem_cons, List.not_mem_nil, or_false] at hb
      rcases hb with rfl | rfl | rfl | rfl | rfl
      · omega
      · omega
      · omega
      · split_ifs <;> omega
      · omega
  · intro h
    have hc : construct_set_effect_cmd e = none := by
      unfold construct_set_effect_cmd
      dsimp only
      have hx : ¬ (|e| / 256 < 256) := by
        rw [Int.abs_eq_natAbs]
        omega
      have h1 : pyBytes [0xBC, 0x06, 0x02, |e| / 256, |e| % 256, 0x55] = none := by
        simp [pyBytes, pyByte, hx]
      rw [h1]
    refine ⟨hc, fun s w => ?_⟩
    unfold set_effect
    rw [hc]

/-- Witness for C10 at `effect = 3` (in range) and `effect = 65536` (out
of range). -/
theorem claim_C10_witness :
    (∃ f1 f2, construct_set_effect_cmd 3 = some [f1, f2] ∧
      f1.length = 6 ∧ f2.length = 5 ∧
      (∀ b ∈ f1, b < 256) ∧ (∀ b ∈ f2, b < 256)) ∧
    (construct_set_effect_cmd 65536 = none ∧
      ∀ (s : Script) (w : World),
        set_effect s 65536 w = (Except.error BleFault.valueError, w)) :=
  ⟨(claim_C10 3).1 (by decide), (claim_C10 65536).2 (by decide)⟩

/-! ## C5: the brightness encoder -/

/-- C5: for every brightness in `[1, 255]`, the emitted frame is the
single 10-byte frame `[0xBC, 0x05, 0x06, hi, lo, 0, 0, 0, 0, 0x55]`
where `scaled = round(100 + (level - 1) / 254 * 900)` (the linear
rescale of `[1, 255]` onto `[100, 1000]`, rounded), `hi = scaled div
256` and `lo = scaled mod 256`, with trailer byte `0x55`. -/
theorem claim_C5 (b : Int) (h1 : 1 ≤ b) (h2 : b ≤ 255) :
    construct_set_brightness_cmd b =
      some [0xBC, 0x05, 0x06,
        (pyRound (100 + ((b : ℚ) - 1) / 254 * 900)).toNat / 256,
        (pyRound (100 + ((b : ℚ) - 1) / 254 * 900)).toNat % 256,
        0x00, 0x00, 0x00, 0x00, 0x55] := by
  have hb1 : (1 : ℚ) ≤ (b : ℚ) := by exact_mod_cast h1
  have hb2 : (b : ℚ) ≤ 255 := by exact_mod_cast h2
  have h3 : ((b : ℚ) - 1) / 254 ≤ 1 := by
    rw [div_le_one (by norm_num : (0 : ℚ) < 254)]
    linarith
  have h4 : 0 ≤ ((b : ℚ) - 1) / 254 := div_nonneg (by linarith) (by norm_num)
  have hq1 : (((100 : ℤ)) : ℚ) ≤ 100 + ((b : ℚ) - 1) / 254 * 900 := by
    push_cast
    nlinarith [h4]
  have hq2 : 100 + ((b : ℚ) - 1) / 254 * 900 ≤ (((1000 : ℤ)) : ℚ) := by
    push_cast
    nlinarith [h3]
  have hs1 : (100 : ℤ) ≤ pyRound (100 + ((b : ℚ) - 1) / 254 * 900) := le_pyRound _ _ hq1
  have hs2 : pyRound (100 + ((b : ℚ) - 1) / 254 * 900) ≤ 1000 := pyRound_le _ _ hq2
  have hq : brightness_to_value BRIGHTESS_SCALE_RANGE b =
      100 + ((b : ℚ) - 1) / 254 * 900 := by
    unfold brightness_to_value BRIGHTESS_SCALE_RANGE
    ring
  unfold construct_set_brightness_cmd
  dsimp only
  rw [hq, pyBytes_eq_some]
  · simp only [List.map_cons, List.map_nil, Option.some.injEq, List.cons.injEq]
    refine ⟨by omega, by omega, by omega, by omega, by omega, by omega, by omega,
      by omega, by omega, by omega, trivial⟩
  · intro n hn
    simp only [List.mem_cons, List.not_mem_nil, or_false] at hn
    rcases hn with rfl | rfl | rfl | rfl | rfl | rfl | rfl | rfl | rfl | rfl <;> omega

/-- Witness for C5 at the spec's example `setBrightness(128)`:
`scaled = round(100 + 127/254*900) = 550 = 2*256 + 38`. -/
theorem claim_C5_witness :
    construct_set_brightness_cmd 128 =
      some [0xBC, 0x05, 0x06, 0x02, 38, 0x00, 0x00, 0x00, 0x00, 0x55] := by
  have h := claim_C5 128 (by norm_num) (by norm_num)
  have hv : (100 + (((128 : ℤ) : ℚ) - 1) / 254 * 900) = (((550 : ℤ)) : ℚ) := by norm_num
  rw [h, hv, pyRound_intCast]
  decide

/-! ## C6: the hue/saturation encoder -/

/-- C6: for every hue in `[0, 360)` and saturation in `[0, 100]`, the
emitted frame is `[0xBC, 0x04, 0x06, hi, lo, shi, slo, 0, 0, 0x55]`
where the hue field is `round(hue) mod 65536` split as `hi = field div
256`, `lo = field mod 256`, and the saturation field is
`round(saturation * 10)` split the same way. -/
theorem claim_C6 (hue sat : ℚ) (h1 : 0 ≤ hue) (h2 : hue < 360)
    (h3 : 0 ≤ sat) (h4 : sat ≤ 100) :
    construct_set_hs_color_cmd (hue, sat) =
      some [0xBC, 0x04, 0x06,
        ((pyRound hue).toNat % 65536) / 256, ((pyRound hue).toNat % 65536) % 256,
        (pyRound (sat * 10)).toNat / 256, (pyRound (sat * 10)).toNat % 256,
        0x00, 0x00, 0x55] := by
  have ha1 : (0 : ℤ) ≤ pyRound hue := le_pyRound 0 hue (by exact_mod_cast h1)
  have ha2 : pyRound hue ≤ 360 := pyRound_le 360 hue (by push_cast; linarith)
  have hb1 : (0 : ℤ) ≤ pyRound (sat * 10) :=
    le_pyRound 0 (sat * 10) (by push_cast; nlinarith)
  have hb2 : pyRound (sat * 10) ≤ 1000 :=
    pyRound_le 1000 (sat * 10) (by push_cast; nlinarith)
  unfold construct_set_hs_color_cmd
  dsimp only
  rw [pyBytes_eq_some]
  · simp only [List.map_cons, List.map_nil, Option.some.injEq, List.cons.injEq]
    refine ⟨by omega, by omega, by omega, by omega, by omega, by omega, by omega,
      by omega, by omega, by omega, trivial⟩
  · intro n hn
    simp only [List.mem_cons, List.not_mem_nil, or_false] at hn
    rcases hn with rfl | rfl | rfl | rfl | rfl | rfl | rfl | rfl | rfl | rfl <;> omega

/-- Witness for C6 at `hue = 180`, `saturation = 50`:
the hue field is `180`, the saturation field `500 = 1*256 + 244`. -/
theorem claim_C6_witness :
    construct_set_hs_color_cmd (180, 50) =
      some [0xBC, 0x04, 0x06, 0x00, 180, 0x01, 244, 0x00, 0x00, 0x55] := by
  have h := claim_C6 180 50 (by norm_num) (by norm_num) (by norm_num) (by norm_num)
  have hv1 : (180 : ℚ) = (((180 : ℤ)) : ℚ) := by norm_num
  have hv2 : ((50 : ℚ) * 10) = (((500 : ℤ)) : ℚ) := by norm_num
  rw [h, hv1, hv2, pyRound_intCast, pyRound_intCast]
  decide

/-! ## C7: fault classification in the locked-send handler -/

lemma execute_disconnect_eq (w : World) :
    execute_disconnect w =
      { w with
        client := none
        writeChar := none
        expectedDisconnect := true
        trace := w.trace ++ disconnectDelta w } := by
  unfold execute_disconnect disconnectDelta
  dsimp only [pushEv]
  by_cases h : w.client = some true <;> simp [h, List.append_assoc]

/-- C7: when the locked write raises a fault, `_send_command_locked`'s
handler classifies it before re-raising: the transient bus fault
(`BleakDBusError`) gets the fixed `0.25` backoff sleep followed by a
forced disconnect and a re-raise; a generic `BleakError` (including the
not-found subclass) gets a forced disconnect with no backoff and a
re-raise; the characteristic-missing fault is re-raised with no
disconnect and the world exactly as the failed write left it. -/
theorem claim_C7 (s : Script) (cmds : List (List Nat)) (w : World) :
    ((execute_command_locked s cmds w).1 = Except.error BleFault.bleakDBusError →
      handledWithDisconnect s cmds w BleFault.bleakDBusError
        [Ev.sleepBackoff BLEAK_BACKOFF_TIME]) ∧
    (∀ e, (e = BleFault.bleakError ∨ e = BleFault.bleakNotFoundError) →
      (execute_command_locked s cmds w).1 = Except.error e →
      handledWithDisconnect s cmds w e []) ∧
    ((execute_command_locked s cmds w).1 = Except.error BleFault.characteristicMissing →
      send_command_locked_once s cmds w =
        (Except.error BleFault.characteristicMissing,
          (execute_command_locked s cmds w).2)) := by
  refine ⟨?_, ?_, ?_⟩
  · unfold handledWithDisconnect send_command_locked_once
    cases hrun : execute_command_locked s cmds w with
    | mk r w1 =>
      intro hE
      dsimp only at hE
      subst hE
      dsimp only
      refine ⟨rfl, ?_, ?_, ?_, ?_⟩ <;>
        simp [execute_disconnect_eq, pushEv, disconnectDelta, List.append_assoc]
  · intro e he
    unfold handledWithDisconnect send_command_locked_once
    cases hrun : execute_command_locked s cmds w with
    | mk r w1 =>
      intro hE
      dsimp only at hE
      subst hE
      rcases he with rfl | rfl <;>
        · dsimp only
          refine ⟨rfl, ?_, ?_, ?_, ?_⟩ <;>
            simp [execute_disconnect_eq, pushEv, disconnectDelta, List.append_assoc]
  · unfold send_command_locked_once
    cases hrun : execute_command_locked s cmds w with
    | mk r w1 =>
      intro hE
      dsimp only at hE
      subst hE
      rfl

/-- Witness for C7: a connected device whose single write raises the
transient bus fault, one whose write raises the generic transport fault,
and one whose characteristic was never resolved. -/
theorem claim_C7_witness :
    handledWithDisconnect sAllDBus [[0x01]] wConnected BleFault.bleakDBusError
      [Ev.sleepBackoff BLEAK_BACKOFF_TIME] ∧
    handledWithDisconnect sAllBleak [[0x01]] wConnected BleFault.bleakError [] ∧
    send_command_locked_once sAllOk [[0x01]] wCharMissing =
      (Except.error BleFault.characteristicMissing,
        (execute_command_locked sAllOk [[0x01]] wCharMissing).2) :=
  ⟨(claim_C7 sAllDBus [[0x01]] wConnected).1 rfl,
    (claim_C7 sAllBleak [[0x01]] wConnected).2.1 BleFault.bleakError (Or.inl rfl) rfl,
    (claim_C7 sAllOk [[0x01]] wCharMissing).2.2 rfl⟩

/-! ## C8: characteristic resolution inside the connect path -/

/-- C8 (counterexample): with a transport whose services never contain
the write characteristic, `_ensure_connected` on a fresh device
nevertheless returns normally and stores a connected client — it does
not give up or report a failure when the characteristic is still
unresolved after the refetch. -/
theorem claim_C8_counterexample :
    (ensure_connected sNoChar w0).1 = Except.ok () ∧
    (ensure_connected sNoChar w0).2.client = some true ∧
    (ensure_connected sNoChar w0).2.writeChar = none :=
  ⟨rfl, by decide, by decide⟩

/-- C8 (amended): after a successful transport connect during
`_ensure_connected`, the write characteristic is resolved from the
cached services; exactly one `get_services` refetch is attempted iff
that first resolution fails; but `_ensure_connected` then completes as
connected regardless — the `resolved` flag is never re-checked — and an
unresolved characteristic is only reported later, when a send raises the
characteristic-missing fault. -/
theorem claim_C8 (s : Script) (w : World) (h1 : w.client = none)
    (h2 : w.writeChar = none) (h3 : s.connectResult w.connectCount = none) :
    (ensure_connected s w).1 = Except.ok () ∧
    (ensure_connected s w).2.client = some true ∧
    (ensure_connected s w).2.getServicesCount =
      w.getServicesCount + (if s.servicesChar w.connectCount then 0 else 1) ∧
    (ensure_connected s w).2.writeChar =
      (if s.servicesChar w.connectCount || s.refetchChar w.connectCount
        then some () else none) := by
  unfold ensure_connected
  dsimp only [pushEv, resolve_characteristics, reset_disconnect_timer]
  simp only [h1, h3]
  by_cases hsc : s.servicesChar w.connectCount <;>
    by_cases hrf : s.refetchChar w.connectCount <;>
      simp [hsc, hrf, h2]

/-- Witness for the amended C8: fresh device, transport that never
resolves the characteristic — one refetch happens and the characteristic
stays unresolved while the connection completes. -/
theorem claim_C8_witness :
    (ensure_connected sNoChar w0).1 = Except.ok () ∧
    (ensure_connected sNoChar w0).2.client = some true ∧
    (ensure_connected sNoChar w0).2.getServicesCount =
      w0.getServicesCount + (if sNoChar.servicesChar w0.connectCount then 0 else 1) ∧
    (ensure_connected sNoChar w0).2.writeChar =
      (if sNoChar.servicesChar w0.connectCount || sNoChar.refetchChar w0.connectCount
        then some () else none) :=
  claim_C8 sNoChar w0 rfl rfl rfl

/-! ## C9: the explicit-disconnect paths -/

/-- C9: every explicit disconnect — `stop` and the idle-timeout teardown
— runs bracketed by the same connect mutex `_ensure_connected` uses, sets
the expected-disconnect flag before any transport disconnect call (which
happens only when a connected client was held), and clears both the
connection handle and the resolved write characteristic regardless of
whether the transport was actually connected. -/
theorem claim_C9 (s : Script) (w : World) :
    stop w = { w with
      client := none
      writeChar := none
      expectedDisconnect := true
      trace := w.trace ++ ([Ev.acquireConnectLock, Ev.setExpectedDisconnect] ++
        (if w.client = some true then [Ev.transportDisconnect] else []) ++
        [Ev.releaseConnectLock]) } ∧
    timed_disconnect w = { w with
      timerArmed := false
      client := none
      writeChar := none
      expectedDisconnect := true
      trace := w.trace ++ ([Ev.acquireConnectLock, Ev.setExpectedDisconnect] ++
        (if w.client = some true then [Ev.transportDisconnect] else []) ++
        [Ev.releaseConnectLock]) } ∧
    Ev.acquireConnectLock ∈ (ensure_connected s { w with client := none }).2.trace := by
  refine ⟨?_, ?_, ?_⟩
  · rw [show stop w = execute_disconnect w from rfl, execute_disconnect_eq]
    simp [disconnectDelta]
  · rw [show timed_disconnect w = execute_disconnect { w with timerArmed := false } from rfl,
      execute_disconnect_eq]
    simp [disconnectDelta]
  · unfold ensure_connected
    dsimp only [pushEv, resolve_characteristics, reset_disconnect_timer]
    simp only [reduceCtorEq, if_false]
    cases hc : s.connectResult w.connectCount with
    | some e => simp [hc]
    | none =>
      simp only [hc]
      split_ifs <;> simp
